import Mathlib

/-!
Verification of `create_feature_graphic.py`: a script that draws a 1024×500
feature graphic consisting of a vertical blue gradient, an optional pasted
icon, and three text blocks, then saves it as a PNG.

The script's own arithmetic (the gradient formulas, the layout constants,
the control flow around the two `try` blocks) is embedded directly from the
source.  Calls into the external imaging library (resize, paste-with-mask,
text rasterisation, PNG encoding) are modelled from the spec; each such
definition carries a doc comment starting `Modelled from the spec:`.

The Python code computes each gradient channel as `int(20 + (y/500)*40)`
(and similarly for green and blue) in IEEE double arithmetic; for every
y in [0, 500) this coincides with the exact rational floor
`20 + (40*y)/500`, so the embedding uses exact natural-number division.
-/

namespace FlowAI

set_option maxRecDepth 4000

/-- RGBA color; each channel is a natural number (0..255 in practice). -/
structure Color where
  r : Nat
  g : Nat
  b : Nat
  a : Nat
deriving DecidableEq, Repr

/-- The in-memory canvas: a pixel grid of the given dimensions.  `pix x y`
is the color at column `x`, row `y`; coordinates outside the
`width × height` domain are irrelevant (the library clips draws to the
canvas). -/
structure Image where
  width : Nat
  height : Nat
  pix : Nat → Nat → Color

/-- Canvas width, from `width, height = 1024, 500`. -/
def width : Nat := 1024

/-- Canvas height, from `width, height = 1024, 500`. -/
def height : Nat := 500

/-- Red channel of the gradient at row `y`: `int(20 + (y / height) * 40)`,
as exact integer arithmetic (coincides with the float computation for all
`y < 500`). -/
def gradientR (y : Nat) : Nat := 20 + y * 40 / 500

/-- Green channel of the gradient at row `y`: `int(50 + (y / height) * 80)`. -/
def gradientG (y : Nat) : Nat := 50 + y * 80 / 500

/-- Blue channel of the gradient at row `y`: `int(100 + (y / height) * 100)`. -/
def gradientB (y : Nat) : Nat := 100 + y * 100 / 500

/-- The fill color used for row `y`: `fill=(r, g, b)` on an RGBA image is an
opaque color (alpha 255). -/
def gradientColor (y : Nat) : Color :=
  ⟨gradientR y, gradientG y, gradientB y, 255⟩

/-- The base image: `Image.new('RGBA', (width, height), (0, 0, 0, 0))`. -/
def blankCanvas : Image :=
  ⟨width, height, fun _ _ => ⟨0, 0, 0, 0⟩⟩

/-- PIL's `draw.rectangle([(x0, y0), (x1, y1)], fill=c)`: paints every pixel
with `x0 ≤ x ≤ x1` and `y0 ≤ y ≤ y1` (the rectangle is inclusive of both
corners; out-of-canvas coordinates are clipped by the domain convention
of `Image`). -/
def paintRect (img : Image) (x0 y0 x1 y1 : Nat) (c : Color) : Image :=
  { img with
    pix := fun x y =>
      if x0 ≤ x ∧ x ≤ x1 ∧ y0 ≤ y ∧ y ≤ y1 then c else img.pix x y }

/-- One iteration of the gradient loop:
`draw.rectangle([(0, y), (width, y+1)], fill=(r, g, b))`. -/
def gradientStep (img : Image) (y : Nat) : Image :=
  paintRect img 0 y width (y + 1) (gradientColor y)

/-- The gradient loop `for y in range(height): ...`. -/
def fillGradient (img : Image) : Image :=
  (List.range height).foldl gradientStep img

@[simp] theorem gradientStep_width (img : Image) (y : Nat) :
    (gradientStep img y).width = img.width := rfl

@[simp] theorem gradientStep_height (img : Image) (y : Nat) :
    (gradientStep img y).height = img.height := rfl

theorem foldl_gradientStep_width (l : List Nat) (img : Image) :
    (l.foldl gradientStep img).width = img.width := by
  induction l generalizing img with
  | nil => rfl
  | cons a l ih => simpa using ih (gradientStep img a)

theorem foldl_gradientStep_height (l : List Nat) (img : Image) :
    (l.foldl gradientStep img).height = img.height := by
  induction l generalizing img with
  | nil => rfl
  | cons a l ih => simpa using ih (gradientStep img a)

@[simp] theorem fillGradient_width (img : Image) :
    (fillGradient img).width = img.width :=
  foldl_gradientStep_width _ _

@[simp] theorem fillGradient_height (img : Image) :
    (fillGradient img).height = img.height :=
  foldl_gradientStep_height _ _

/-- After folding the gradient step over `range n`, any row `y < n` holds
the gradient color for `y` at every in-canvas column: the writer at
iteration `y` is the last to touch row `y` (iteration `y` paints rows `y`
and `y+1`, so later iterations only touch higher rows). -/
theorem foldl_gradientStep_pix (n : Nat) :
    ∀ (img : Image) (x y : Nat), x ≤ width → y < n →
      ((List.range n).foldl gradientStep img).pix x y = gradientColor y := by
  induction n with
  | zero => intro img x y _ hy; omega
  | succ n ih =>
    intro img x y hx hy
    rw [List.range_succ, List.foldl_append]
    simp only [List.foldl_cons, List.foldl_nil]
    by_cases hyn : y = n
    · subst hyn
      have hcond : 0 ≤ x ∧ x ≤ width ∧ y ≤ y ∧ y ≤ y + 1 := by omega
      simp [gradientStep, paintRect, hcond]
    · have hcond : ¬(0 ≤ x ∧ x ≤ width ∧ n ≤ y ∧ y ≤ n + 1) := by
        rintro ⟨-, -, h3, -⟩; omega
      simp only [gradientStep, paintRect, hcond, if_false]
      exact ih img x y hx (by omega)

/-- Pixel value of the gradient-filled canvas at any in-canvas coordinate. -/
theorem fillGradient_pix (img : Image) (x y : Nat) (hx : x ≤ width) (hy : y < height) :
    (fillGradient img).pix x y = gradientColor y :=
  foldl_gradientStep_pix height img x y hx hy

/-- Modelled from the spec: PIL's `Image.resize((w, h), LANCZOS)` is
external-library code; the spec states it returns an image of exactly the
requested dimensions whose content is a resampling of the source.  The
resampled content is modelled by coordinate sampling — no claim depends on
the resampled colors, only on the dimensions and the alpha channel of the
result, which sampling preserves for uniformly-transparent sources. -/
def resize (img : Image) (w h : Nat) : Image :=
  ⟨w, h, fun x y => img.pix (x * img.width / w) (y * img.height / h)⟩

@[simp] theorem resize_width (img : Image) (w h : Nat) :
    (resize img w h).width = w := rfl

@[simp] theorem resize_height (img : Image) (w h : Nat) :
    (resize img w h).height = h := rfl

/-- Modelled from the spec: PIL's `dst.paste(src, (px, py), mask)` with an
RGBA mask is external-library code; the spec states the mask's alpha
channel controls per-pixel compositing, so transparent mask pixels leave
the destination unchanged.  Inside the pasted box each channel is blended
as `(src·a + dst·(255−a)) / 255`; outside the box the destination is
untouched. -/
def paste (dst src : Image) (px py : Nat) (mask : Image) : Image :=
  { dst with
    pix := fun x y =>
      if px ≤ x ∧ x < px + src.width ∧ py ≤ y ∧ y < py + src.height then
        let a := (mask.pix (x - px) (y - py)).a
        let s := src.pix (x - px) (y - py)
        let d := dst.pix x y
        ⟨(s.r * a + d.r * (255 - a)) / 255,
         (s.g * a + d.g * (255 - a)) / 255,
         (s.b * a + d.b * (255 - a)) / 255,
         (s.a * a + d.a * (255 - a)) / 255⟩
      else dst.pix x y }

@[simp] theorem paste_width (dst src : Image) (px py : Nat) (mask : Image) :
    (paste dst src px py mask).width = dst.width := rfl

@[simp] theorem paste_height (dst src : Image) (px py : Nat) (mask : Image) :
    (paste dst src px py mask).height = dst.height := rfl

/-- Wherever the paste mask is fully transparent (alpha 0), the destination
pixel is unchanged. -/
theorem paste_pix_of_alpha_zero (dst src mask : Image) (px py x y : Nat)
    (ha : (mask.pix (x - px) (y - py)).a = 0) :
    (paste dst src px py mask).pix x y = dst.pix x y := by
  rcases hd : dst.pix x y with ⟨dr, dg, db, da⟩
  unfold paste
  simp only [ha, hd]
  split
  · simp only [Color.mk.injEq]
    omega
  · rfl

/-- A font handle: either a truetype font loaded from a path at a point
size (`ImageFont.truetype(path, size)`), or the built-in default font
(`ImageFont.load_default()`). -/
inductive Font where
  | truetype (path : String) (size : Nat)
  | fallback
deriving DecidableEq, Repr

/-- The system font path the script tries:
`"/System/Library/Fonts/Helvetica.ttc"`. -/
def helveticaPath : String := "/System/Library/Fonts/Helvetica.ttc"

/-- The font-loading `try` block: attempt
`ImageFont.truetype(helveticaPath, 60)` then
`ImageFont.truetype(helveticaPath, 32)`; if either call raises (the
booleans say whether each call would succeed; a failed first call means
the second is never reached), the `except` branch assigns
`ImageFont.load_default()` to both fonts. -/
def loadFonts (ok60 ok32 : Bool) : Font × Font :=
  if ok60 then
    if ok32 then
      (Font.truetype helveticaPath 60, Font.truetype helveticaPath 32)
    else
      (Font.fallback, Font.fallback)
  else
    (Font.fallback, Font.fallback)

/-- Glyph-coverage oracle for text rendering: given the text, the font and
an offset (right, down) from the anchor, whether that pixel is covered by
a glyph.  The actual rasteriser is external-library code, so runs are
parametrised over it. -/
def TextRaster : Type :=
  String → Font → Nat → Nat → Bool

/-- Modelled from the spec: PIL's `draw.text((tx, ty), text, fill, font)`
is external-library code; the spec states text is rendered at fixed
coordinates, glyphs extending rightward and downward from the anchor
(all text draws start at x=420).  Covered pixels take the fill color;
all other pixels are unchanged. -/
def drawText (img : Image) (tx ty : Nat) (text : String) (fill : Color)
    (font : Font) (raster : TextRaster) : Image :=
  { img with
    pix := fun x y =>
      if tx ≤ x ∧ ty ≤ y ∧ raster text font (x - tx) (y - ty) = true then
        fill
      else img.pix x y }

@[simp] theorem drawText_width (img : Image) (tx ty : Nat) (text : String)
    (fill : Color) (font : Font) (raster : TextRaster) :
    (drawText img tx ty text fill font raster).width = img.width := rfl

@[simp] theorem drawText_height (img : Image) (tx ty : Nat) (text : String)
    (fill : Color) (font : Font) (raster : TextRaster) :
    (drawText img tx ty text fill font raster).height = img.height := rfl

/-- Text never paints to the left of its anchor column. -/
theorem drawText_pix_of_lt (img : Image) (tx ty : Nat) (text : String)
    (fill : Color) (font : Font) (raster : TextRaster) (x y : Nat)
    (hx : x < tx) :
    (drawText img tx ty text fill font raster).pix x y = img.pix x y := by
  unfold drawText
  have hcond : ¬(tx ≤ x ∧ ty ≤ y ∧ raster text font (x - tx) (y - ty) = true) := by
    rintro ⟨h1, -, -⟩; omega
  simp [hcond]

/-- An observable effect of a run: a line printed to standard output, or an
image saved under a file name. -/
inductive Event where
  | print (line : String)
  | save (fileName : String) (img : Image)

/-- Result of one run: the ordered trace of prints and saves, plus the
final in-memory canvas (the image carried by the save event). -/
structure RunResult where
  trace : List Event
  final : Image

/-- The three `draw.text` calls: title at (420, 120) in white, subtitle at
(420, 200), description at (420, 280). -/
def drawTexts (img : Image) (titleFont subtitleFont : Font)
    (raster : TextRaster) : Image :=
  drawText
    (drawText
      (drawText img 420 120 "Flow AI" ⟨255, 255, 255, 255⟩ titleFont raster)
      420 200 "AI-Powered Health Insights" ⟨200, 220, 255, 255⟩ subtitleFont raster)
    420 280 "Personalized wellness tracking\nwith intelligent recommendations"
    ⟨180, 200, 255, 255⟩ subtitleFont raster

/-- The whole routine `create_feature_graphic()`, as a function of its
external inputs: `iconFile` is the result of `Image.open` + the icon
pipeline (`Except.error e` when any step of the icon `try` block raises
with message `e`), `ok60`/`ok32` say whether the two truetype loads
succeed, and `raster` is the glyph-coverage oracle of the text renderer.
The routine always returns: both failure kinds are absorbed locally. -/
def create_feature_graphic (iconFile : Except String Image)
    (ok60 ok32 : Bool) (raster : TextRaster) : RunResult :=
  let img0 := fillGradient blankCanvas
  let iconStage : Image × List Event :=
    match iconFile with
    | Except.ok icon =>
        let icon2 := resize icon 300 300
        let icon_x := 80
        let icon_y := (height - 300) / 2
        (paste img0 icon2 icon_x icon_y icon2, [])
    | Except.error e => (img0, [Event.print ("Could not load icon: " ++ e)])
  let fonts := loadFonts ok60 ok32
  let imgFinal := drawTexts iconStage.1 fonts.1 fonts.2 raster
  { trace := iconStage.2 ++
      [Event.save "flow_ai_feature_graphic.png" imgFinal,
       Event.print "Feature graphic created: flow_ai_feature_graphic.png",
       Event.print "Size: 1024x500 pixels"],
    final := imgFinal }

/-- Modelled from the spec: PNG encoding (`img.save(..., 'PNG')`) is
external-library code; the spec states the encoder embeds no timestamps or
randomness, so the emitted bytes are a deterministic function of the pixel
data.  Modelled as a canonical listing of the dimensions followed by the
row-major RGBA channel values. -/
def serializePNG (img : Image) : List Nat :=
  img.width :: img.height ::
    (List.range img.height).flatMap (fun y =>
      (List.range img.width).flatMap (fun x =>
        [(img.pix x y).r, (img.pix x y).g, (img.pix x y).b, (img.pix x y).a]))

/-- A fully transparent 512×512 RGBA image, used to instantiate theorems
at a concrete icon. -/
def clearIcon : Image :=
  ⟨512, 512, fun _ _ => ⟨0, 0, 0, 0⟩⟩

@[simp] theorem blankCanvas_width : blankCanvas.width = 1024 := rfl

@[simp] theorem blankCanvas_height : blankCanvas.height = 500 := rfl

@[simp] theorem drawTexts_width (img : Image) (f1 f2 : Font) (raster : TextRaster) :
    (drawTexts img f1 f2 raster).width = img.width := rfl

@[simp] theorem drawTexts_height (img : Image) (f1 f2 : Font) (raster : TextRaster) :
    (drawTexts img f1 f2 raster).height = img.height := rfl

/-- All three text draws are anchored at column 420, so no text paints any
pixel with `x < 420`. -/
theorem drawTexts_pix_of_lt (img : Image) (f1 f2 : Font) (raster : TextRaster)
    (x y : Nat) (hx : x < 420) :
    (drawTexts img f1 f2 raster).pix x y = img.pix x y := by
  unfold drawTexts
  rw [drawText_pix_of_lt _ _ _ _ _ _ _ _ _ hx, drawText_pix_of_lt _ _ _ _ _ _ _ _ _ hx,
    drawText_pix_of_lt _ _ _ _ _ _ _ _ _ hx]

/-- On the icon-failure path, the final canvas is the gradient-filled base
with the three texts drawn (no paste). -/
theorem run_error_final (e : String) (ok60 ok32 : Bool) (raster : TextRaster) :
    (create_feature_graphic (Except.error e) ok60 ok32 raster).final =
      drawTexts (fillGradient blankCanvas)
        (loadFonts ok60 ok32).1 (loadFonts ok60 ok32).2 raster := rfl

/-- On the icon-failure path, the trace is the diagnostic, the save, and
the two confirmation lines, in that order. -/
theorem run_error_trace (e : String) (ok60 ok32 : Bool) (raster : TextRaster) :
    (create_feature_graphic (Except.error e) ok60 ok32 raster).trace =
      [Event.print ("Could not load icon: " ++ e),
       Event.save "flow_ai_feature_graphic.png"
         (create_feature_graphic (Except.error e) ok60 ok32 raster).final,
       Event.print "Feature graphic created: flow_ai_feature_graphic.png",
       Event.print "Size: 1024x500 pixels"] := rfl

/-- On the icon-success path, the final canvas is the gradient-filled base
with the resized icon pasted at (80, (height−300)/2) using itself as mask,
then the three texts drawn. -/
theorem run_ok_final (icon : Image) (ok60 ok32 : Bool) (raster : TextRaster) :
    (create_feature_graphic (Except.ok icon) ok60 ok32 raster).final =
      drawTexts
        (paste (fillGradient blankCanvas) (resize icon 300 300) 80 ((height - 300) / 2)
          (resize icon 300 300))
        (loadFonts ok60 ok32).1 (loadFonts ok60 ok32).2 raster := rfl

/-- C1: for every row y in [0, 500), after the gradient fill every pixel of
row y of the canvas has the identical opaque color (r, g, b) with
r = int(20 + (y/500)·40), g = int(50 + (y/500)·80), b = int(100 + (y/500)·100),
each value truncated to an integer (alpha 255). -/
theorem c1_gradient_row_uniform_opaque (y : Nat) (hy : y < 500) (x : Nat) (hx : x < 1024) :
    (fillGradient blankCanvas).pix x y =
      ⟨20 + y * 40 / 500, 50 + y * 80 / 500, 100 + y * 100 / 500, 255⟩ :=
  fillGradient_pix blankCanvas x y (Nat.le_of_lt hx) hy

/-- C1 witness: at row 250, column 512, the gradient pixel is the opaque
color (40, 90, 150). -/
theorem c1_gradient_row_uniform_opaque_witness :
    (fillGradient blankCanvas).pix 512 250 = ⟨40, 90, 150, 255⟩ :=
  c1_gradient_row_uniform_opaque 250 (by decide) 512 (by decide)

/-- C2 counterexample: the claim's formulas floor(20 + 80y/500) and
floor(50 + 130y/500) are false at row 250: the canvas red channel is 40
while the claimed formula gives 60, and the green channel is 90 while the
claimed formula gives 115 — both more than one apart, beyond any
integer-rounding tolerance. -/
theorem c2_spec_formula_counterexample :
    ((fillGradient blankCanvas).pix 0 250).r + 1 < 20 + 80 * 250 / 500 ∧
    ((fillGradient blankCanvas).pix 0 250).g + 1 < 50 + 130 * 250 / 500 := by
  rw [fillGradient_pix blankCanvas 0 250 (by decide) (by decide)]
  decide

/-- C2 (amended): for all y in [0, 500), the gradient row's red component
equals floor(20 + 40y/500) and its green component equals
floor(50 + 80y/500), exactly, and the color is constant across the row. -/
theorem c2_gradient_channels_amended (y : Nat) (hy : y < 500) (x : Nat) (hx : x < 1024) :
    ((fillGradient blankCanvas).pix x y).r = 20 + 40 * y / 500 ∧
    ((fillGradient blankCanvas).pix x y).g = 50 + 80 * y / 500 ∧
    (fillGradient blankCanvas).pix x y = (fillGradient blankCanvas).pix 0 y := by
  rw [fillGradient_pix blankCanvas x y (Nat.le_of_lt hx) hy,
    fillGradient_pix blankCanvas 0 y (Nat.zero_le _) hy]
  refine ⟨?_, ?_, rfl⟩ <;> simp only [gradientColor, gradientR, gradientG] <;> omega

/-- C2 (amended) witness: at row 250, column 3, red is 40 = 20 + 40·250/500
and green is 90 = 50 + 80·250/500, and the pixel equals the column-0
pixel of its row. -/
theorem c2_gradient_channels_amended_witness :
    ((fillGradient blankCanvas).pix 3 250).r = 40 ∧
    ((fillGradient blankCanvas).pix 3 250).g = 90 ∧
    (fillGradient blankCanvas).pix 3 250 = (fillGradient blankCanvas).pix 0 250 :=
  c2_gradient_channels_amended 250 (by decide) 3 (by decide)

/-- C3: for rows y1 ≤ y2 in [0, 500), every channel of the gradient color
at y1 is at most the corresponding channel at y2 — the gradient is
monotonically non-decreasing in every channel from top to bottom. -/
theorem c3_gradient_monotone (y1 y2 : Nat) (h12 : y1 ≤ y2) (h2 : y2 < 500)
    (x : Nat) (hx : x < 1024) :
    ((fillGradient blankCanvas).pix x y1).r ≤ ((fillGradient blankCanvas).pix x y2).r ∧
    ((fillGradient blankCanvas).pix x y1).g ≤ ((fillGradient blankCanvas).pix x y2).g ∧
    ((fillGradient blankCanvas).pix x y1).b ≤ ((fillGradient blankCanvas).pix x y2).b := by
  rw [fillGradient_pix blankCanvas x y1 (Nat.le_of_lt hx) (lt_of_le_of_lt h12 h2),
    fillGradient_pix blankCanvas x y2 (Nat.le_of_lt hx) h2]
  simp only [gradientColor, gradientR, gradientG, gradientB]
  omega

/-- C3 witness: channels at row 100 are at most those at row 400
(column 512). -/
theorem c3_gradient_monotone_witness :
    ((fillGradient blankCanvas).pix 512 100).r ≤ ((fillGradient blankCanvas).pix 512 400).r ∧
    ((fillGradient blankCanvas).pix 512 100).g ≤ ((fillGradient blankCanvas).pix 512 400).g ∧
    ((fillGradient blankCanvas).pix 512 100).b ≤ ((fillGradient blankCanvas).pix 512 400).b :=
  c3_gradient_monotone 100 400 (by decide) (by decide) 512 (by decide)

/-- C4: on a successful icon load, the run resizes the icon (of any source
size) to exactly 300×300 and pastes it at x=80, y=(500−300)/2 = 100 with
the icon's own alpha channel as mask; fully transparent icon pixels leave
the underlying gradient pixel unchanged. -/
theorem c4_icon_resize_paste (icon : Image) :
    (resize icon 300 300).width = 300 ∧
    (resize icon 300 300).height = 300 ∧
    (height - 300) / 2 = 100 ∧
    (∀ x y : Nat, ((resize icon 300 300).pix (x - 80) (y - 100)).a = 0 →
      (paste (fillGradient blankCanvas) (resize icon 300 300) 80 ((height - 300) / 2)
          (resize icon 300 300)).pix x y = (fillGradient blankCanvas).pix x y) ∧
    (∀ (ok60 ok32 : Bool) (raster : TextRaster),
      (create_feature_graphic (Except.ok icon) ok60 ok32 raster).final =
        drawTexts
          (paste (fillGradient blankCanvas) (resize icon 300 300) 80 ((height - 300) / 2)
            (resize icon 300 300))
          (loadFonts ok60 ok32).1 (loadFonts ok60 ok32).2 raster) := by
  refine ⟨rfl, rfl, rfl, ?_, ?_⟩
  · intro x y ha
    exact paste_pix_of_alpha_zero _ _ _ _ _ _ _ ha
  · intro ok60 ok32 raster
    exact run_ok_final icon ok60 ok32 raster

/-- C4 witness: with a fully transparent 512×512 icon, the pasted canvas at
(200, 250) equals the underlying gradient pixel. -/
theorem c4_icon_resize_paste_witness :
    ((resize clearIcon 300 300).pix (200 - 80) (250 - 100)).a = 0 ∧
    (paste (fillGradient blankCanvas) (resize clearIcon 300 300) 80 ((height - 300) / 2)
        (resize clearIcon 300 300)).pix 200 250 = (fillGradient blankCanvas).pix 200 250 :=
  ⟨rfl, (c4_icon_resize_paste clearIcon).2.2.2.1 200 250 rfl⟩

/-- C5: an icon-load failure with any message e is caught: a diagnostic
beginning with "Could not load icon" is printed, the routine continues,
the canvas is still saved, and the output is exactly 1024×500. -/
theorem c5_icon_failure_handled (e : String) (ok60 ok32 : Bool) (raster : TextRaster) :
    Event.print ("Could not load icon" ++ (": " ++ e)) ∈
      (create_feature_graphic (Except.error e) ok60 ok32 raster).trace ∧
    Event.save "flow_ai_feature_graphic.png"
        (create_feature_graphic (Except.error e) ok60 ok32 raster).final ∈
      (create_feature_graphic (Except.error e) ok60 ok32 raster).trace ∧
    (create_feature_graphic (Except.error e) ok60 ok32 raster).final.width = 1024 ∧
    (create_feature_graphic (Except.error e) ok60 ok32 raster).final.height = 500 := by
  refine ⟨?_, ?_, ?_, ?_⟩
  · rw [run_error_trace, ← String.append_assoc]
    exact List.mem_cons_self _ _
  · rw [run_error_trace]
    exact List.mem_cons_of_mem _ (List.mem_cons_self _ _)
  · rw [run_error_final]
    simp
  · rw [run_error_final]
    simp

/-- C6: the routine attempts ImageFont.truetype on the fixed system font
path at point sizes 60 (title) and 32 (subtitle); on any failure of either
attempt, both fonts are replaced by the built-in default, and the failure
never escapes (loadFonts is total). -/
theorem c6_font_fallback (ok60 ok32 : Bool) :
    loadFonts true true =
      (Font.truetype helveticaPath 60, Font.truetype helveticaPath 32) ∧
    ((ok60 = false ∨ ok32 = false) →
      loadFonts ok60 ok32 = (Font.fallback, Font.fallback)) := by
  refine ⟨rfl, ?_⟩
  rintro (h | h)
  · subst h; rfl
  · subst h; cases ok60 <;> rfl

/-- C6 witness: when the size-60 load fails, both fonts are the default. -/
theorem c6_font_fallback_witness :
    loadFonts false true = (Font.fallback, Font.fallback) :=
  (c6_font_fallback false true).2 (Or.inl rfl)

/-- C7: every run that completes saves the final canvas, of exactly
1024×500 pixels, under 'flow_ai_feature_graphic.png', and the two
confirmation lines (with the file name and the pixel dimensions) are
printed after the save. -/
theorem c7_output_saved_and_confirmed (iconFile : Except String Image)
    (ok60 ok32 : Bool) (raster : TextRaster) :
    (∃ pre : List Event,
      (create_feature_graphic iconFile ok60 ok32 raster).trace =
        pre ++
          [Event.save "flow_ai_feature_graphic.png"
              (create_feature_graphic iconFile ok60 ok32 raster).final,
           Event.print "Feature graphic created: flow_ai_feature_graphic.png",
           Event.print "Size: 1024x500 pixels"]) ∧
    (create_feature_graphic iconFile ok60 ok32 raster).final.width = 1024 ∧
    (create_feature_graphic iconFile ok60 ok32 raster).final.height = 500 := by
  cases iconFile with
  | ok icon =>
    refine ⟨⟨[], rfl⟩, ?_, ?_⟩ <;> rw [run_ok_final] <;> simp
  | error e =>
    refine ⟨⟨[Event.print ("Could not load icon: " ++ e)], rfl⟩, ?_, ?_⟩ <;>
      rw [run_error_final] <;> simp

/-- C8: the routine is deterministic: two runs with identical external
inputs (same icon-load outcome, same font availability, same text
rasteriser) produce identical PNG bytes and identical traces — no
randomness or timestamps influence the output. -/
theorem c8_deterministic (i1 i2 : Except String Image) (a1 b1 a2 b2 : Bool)
    (r1 r2 : TextRaster) (hi : i1 = i2) (ha : a1 = a2) (hb : b1 = b2) (hr : r1 = r2) :
    serializePNG (create_feature_graphic i1 a1 b1 r1).final =
      serializePNG (create_feature_graphic i2 a2 b2 r2).final ∧
    (create_feature_graphic i1 a1 b1 r1).trace =
      (create_feature_graphic i2 a2 b2 r2).trace := by
  subst hi; subst ha; subst hb; subst hr
  exact ⟨rfl, rfl⟩

/-- C8 witness: two identically-configured runs (icon file missing, fonts
unavailable, empty rasteriser) agree byte-for-byte and trace-for-trace. -/
theorem c8_deterministic_witness :
    serializePNG (create_feature_graphic (Except.error "file not found") false false
        (fun _ _ _ _ => false)).final =
      serializePNG (create_feature_graphic (Except.error "file not found") false false
        (fun _ _ _ _ => false)).final ∧
    (create_feature_graphic (Except.error "file not found") false false
        (fun _ _ _ _ => false)).trace =
      (create_feature_graphic (Except.error "file not found") false false
        (fun _ _ _ _ => false)).trace :=
  c8_deterministic _ _ _ _ _ _ _ _ rfl rfl rfl rfl

/-- C9: when the icon file is absent, every output pixel in the icon's
former bounding box (x in [80, 380], y in [100, 400]) equals the
pure-gradient baseline color of its row: the text draws, all anchored at
x = 420, never write into that region. -/
theorem c9_icon_absent_region_gradient (e : String) (ok60 ok32 : Bool)
    (raster : TextRaster) (x y : Nat)
    (hx1 : 80 ≤ x) (hx2 : x ≤ 380) (hy1 : 100 ≤ y) (hy2 : y ≤ 400) :
    (create_feature_graphic (Except.error e) ok60 ok32 raster).final.pix x y =
      gradientColor y := by
  rw [run_error_final, drawTexts_pix_of_lt _ _ _ _ _ _ (by omega)]
  exact fillGradient_pix blankCanvas x y (by show x ≤ 1024; omega) (by show y < 500; omega)

/-- C9 witness: with the icon missing and an aggressive rasteriser, the
output pixel at (200, 250) is still the gradient baseline of row 250. -/
theorem c9_icon_absent_region_gradient_witness :
    (create_feature_graphic (Except.error "missing") false false
        (fun _ _ _ _ => true)).final.pix 200 250 = gradientColor 250 :=
  c9_icon_absent_region_gradient "missing" false false (fun _ _ _ _ => true) 200 250
    (by decide) (by decide) (by decide) (by decide)

/-- C10: for every row y in [0, 500), the gradient channels stay within
strict bounds — r in [20, 59], g in [50, 129], b in [100, 199] — so each
fits in a byte without clamping, and the nominal endpoints 60, 130 and 200
are never reached. -/
theorem c10_gradient_channel_bounds (y : Nat) (hy : y < 500) :
    (20 ≤ gradientR y ∧ gradientR y ≤ 59) ∧
    (50 ≤ gradientG y ∧ gradientG y ≤ 129) ∧
    (100 ≤ gradientB y ∧ gradientB y ≤ 199) ∧
    gradientR y ≠ 60 ∧ gradientG y ≠ 130 ∧ gradientB y ≠ 200 ∧
    gradientR y ≤ 255 ∧ gradientG y ≤ 255 ∧ gradientB y ≤ 255 := by
  unfold gradientR gradientG gradientB
  omega

/-- C10 witness: at the last row y = 499 the channels are strictly below
the nominal endpoints. -/
theorem c10_gradient_channel_bounds_witness :
    (20 ≤ gradientR 499 ∧ gradientR 499 ≤ 59) ∧
    (50 ≤ gradientG 499 ∧ gradientG 499 ≤ 129) ∧
    (100 ≤ gradientB 499 ∧ gradientB 499 ≤ 199) ∧
    gradientR 499 ≠ 60 ∧ gradientG 499 ≠ 130 ∧ gradientB 499 ≠ 200 ∧
    gradientR 499 ≤ 255 ∧ gradientG 499 ≤ 255 ∧ gradientB 499 ≤ 255 :=
  c10_gradient_channel_bounds 499 (by decide)

end FlowAI
